import Mathlib

/-!
Shallow embedding of the authentication backend in `src/main.py`
(FastAPI signup/login handlers, password hashing, JWT issuance, and a
document-store gateway).  Python dicts that cross the API boundary are
modelled as association lists `List (String × JVal)`; stored user
documents, which the handlers access with `dict.get` and optional
defaults, are modelled as a record of `Option` fields; machine state
(the store contents and the current time) is passed explicitly.

The modules `database.py` (store handle `db`, `get_documents`,
`create_document`) and the third-party primitives (passlib's
`CryptContext`, `jwt.encode`) are not part of `src/`; they are modelled
from the contracts the specification states for them (sections 4.1-4.3),
with a `Modelled from the spec:` note on each such definition.
-/

set_option autoImplicit false

namespace MainPy

/-- Opaque store-generated identifier (`ObjectId` in the real store).
Modelled from the spec: "`id`: opaque unique identifier, generated by
the store on insert." -/
abbrev ObjectId := Nat

/-- A JSON-ish value as it appears in the Python dicts the handlers
build: strings, raw store identifiers (un-stringified `ObjectId`s),
booleans, datetimes (seconds since epoch), and `None`. -/
inductive JVal where
  | s : String → JVal
  | oid : ObjectId → JVal
  | b : Bool → JVal
  | time : Nat → JVal
  | null : JVal
  deriving DecidableEq, Repr

/-- `str(x)` on an optional identifier, as Python computes it in
`str(user.get("_id"))`: `None` prints as `"None"`. -/
def pyStr : Option ObjectId → String
  | none => "None"
  | some i => toString i

/-- A value fetched with `dict.get(key)` (default `None`), as it is
placed into a response dict: a missing field becomes JSON `null`. -/
def optStrToJVal : Option String → JVal
  | none => JVal.null
  | some s => JVal.s s

/-- Python's `str.lower()` as the handlers use it to normalize emails:
each character mapped to lower case.  (Defined over the character list
so that it is evaluable; `String.toLower` is the same map.) -/
def pyLower (s : String) : String :=
  ⟨s.data.map Char.toLower⟩

/-- Python's `str.strip()` as the signup handler applies it to `name`:
leading and trailing whitespace removed. -/
def pyStrip (s : String) : String :=
  ⟨((s.data.dropWhile Char.isWhitespace).reverse.dropWhile
      Char.isWhitespace).reverse⟩

/-- A stored user document.  The login handler reads every field with
`dict.get` and a default, so each field is optional. -/
structure Doc where
  _id : Option ObjectId
  name : Option String
  email : Option String
  password_hash : Option String
  is_active : Option Bool
  role : Option String
  deriving DecidableEq, Repr

/-- Modelled from the spec: the document store behind `database.py`
(absent from `src/`): one collection named "user" and an id generator
("opaque unique identifier, generated by the store on insert"). -/
structure Store where
  users : List Doc
  nextId : Nat
  deriving DecidableEq, Repr

/-- Modelled from the spec: `find_by_email(email) -> list of at most
limit User records`, an "exact-match lookup on normalized lowercase
email" (section 4.3).  `main.py` only ever calls `get_documents` with a
`{"email": e}` filter, so the filter argument is the email value. -/
def get_documents (store : Store) (collection : String) (emailFilter : String)
    (limit : Nat) : List Doc :=
  if collection = "user" then
    (store.users.filter (fun d => d.email == some emailFilter)).take limit
  else []

/-- Modelled from the spec: `insert(user_fields) -> id` "creates a new
User record, returns its generated identifier" (section 4.3); the
generated id becomes the record's `_id` field (section 3). -/
def create_document (store : Store) (collection : String) (doc : Doc) :
    ObjectId × Store :=
  if collection = "user" then
    (store.nextId,
     { users := store.users ++ [{ doc with _id := some store.nextId }],
       nextId := store.nextId + 1 })
  else (store.nextId, store)

/-- `ACCESS_TOKEN_EXPIRE_MINUTES = 60 * 24 * 7  # 7 days` -/
def ACCESS_TOKEN_EXPIRE_MINUTES : Nat := 60 * 24 * 7

/-- Modelled from the spec: the Credential Hasher's
`hash(plaintext) -> hash_string`, a "deterministic one-way transform"
whose output "encodes algorithm parameters and salt" (section 4.1).
The real primitive is passlib's bcrypt, external to `src/`; the model
keeps the contract that matters to the handlers: hashing is
deterministic, its output is a non-empty string distinct from every
plaintext, and `verify` recognises exactly the matching plaintext. -/
def hash_password (password : String) : String :=
  "bcrypt$" ++ password

/-- Modelled from the spec: `verify(plaintext, hash_string) -> bool`
"returns whether plaintext re-hashes to match"; "No exceptions for
wrong password — only a boolean" (section 4.1). -/
def verify_password (password : String) (password_hash : String) : Bool :=
  password_hash == hash_password password

/-- `dict.copy()`: a fresh dict with the same entries. -/
def dictCopy (d : List (String × JVal)) : List (String × JVal) := d

/-- `dict.update({k: v})`: replace the value at `k` if the key is
present, otherwise add the entry. -/
def dictUpdate (d : List (String × JVal)) (k : String) (v : JVal) :
    List (String × JVal) :=
  if d.any (fun p => p.1 == k) then
    d.map (fun p => if p.1 == k then (k, v) else p)
  else d ++ [(k, v)]

/-- Modelled from the spec: the encoded JWT.  `jwt.encode` signs the
claim mapping with the process secret; signing is external, and no
endpoint in scope ever decodes a token, so the model keeps the claim
payload (what "decoding it immediately after issuance yields"). -/
structure JwtToken where
  payload : List (String × JVal)
  deriving DecidableEq, Repr

/-- `create_access_token` from `main.py`.  The mutable `data` dict is
threaded explicitly: the first component of the result is the caller's
dict after the call (the source copies `data` before adding `exp`, so
it comes back unchanged).  `now` is the current UTC time in seconds;
`expires_delta` is an optional lifetime in seconds
(`timedelta(minutes=ACCESS_TOKEN_EXPIRE_MINUTES)` is
`ACCESS_TOKEN_EXPIRE_MINUTES * 60` seconds). -/
def create_access_token (data : List (String × JVal)) (now : Nat)
    (expires_delta : Option Nat) : List (String × JVal) × JwtToken :=
  let to_encode := dictCopy data
  let expire := now + (expires_delta.getD (ACCESS_TOKEN_EXPIRE_MINUTES * 60))
  let to_encode := dictUpdate to_encode "exp" (JVal.time expire)
  (data, ⟨to_encode⟩)

/-- `SignupRequest`: `name` (2-80 chars), `email` (`EmailStr`),
`password` (6-128 chars). -/
structure SignupRequest where
  name : String
  email : String
  password : String
  deriving DecidableEq, Repr

/-- `LoginRequest`: `email` (`EmailStr`), `password` (6-128 chars). -/
structure LoginRequest where
  email : String
  password : String
  deriving DecidableEq, Repr

/-- Modelled from the spec: "email must be syntactically valid" —
pydantic's `EmailStr` is an external validator; the model keeps the
shape that matters: one `@` separating a non-empty local part from a
non-empty domain containing a dot. -/
def validEmail (s : String) : Bool :=
  let lp := s.data.takeWhile (fun c => c != '@')
  match s.data.dropWhile (fun c => c != '@') with
  | '@' :: dp => !lp.isEmpty && !dp.isEmpty && dp.contains '.' && !dp.contains '@'
  | _ => false

/-- Pydantic validation of a signup payload, applied by the framework
before the handler runs: `name` 2-80 chars, valid email, `password`
6-128 chars. -/
def SignupRequest.isValid (r : SignupRequest) : Bool :=
  decide (2 ≤ r.name.length) && decide (r.name.length ≤ 80) &&
    validEmail r.email &&
    decide (6 ≤ r.password.length) && decide (r.password.length ≤ 128)

/-- Pydantic validation of a login payload. -/
def LoginRequest.isValid (r : LoginRequest) : Bool :=
  validEmail r.email &&
    decide (6 ≤ r.password.length) && decide (r.password.length ≤ 128)

/-- An `HTTPException(status_code=..., detail=...)`. -/
structure HTTPError where
  status : Nat
  detail : String
  deriving DecidableEq, Repr

/-- The `AuthResponse` body: a token and a public-user dict. -/
structure AuthResponse where
  token : JwtToken
  user : List (String × JVal)
  deriving DecidableEq, Repr

/-- The signup handler (`POST /auth/signup`).  `db` is the optional
store handle (`None` when the store is unconfigured); `now` is the
current time.  Returns the response together with the store after the
call, or the raised `HTTPException`. -/
def signup (db : Option Store) (payload : SignupRequest) (now : Nat) :
    Except HTTPError (AuthResponse × Store) :=
  match db with
  | none => .error ⟨500, "Database not configured"⟩
  | some store =>
    let existing := get_documents store "user" (pyLower payload.email) 1
    if !existing.isEmpty then
      .error ⟨400, "Email already registered"⟩
    else
      let user_doc : Doc :=
        { _id := none
          name := some (pyStrip payload.name)
          email := some (pyLower payload.email)
          password_hash := some (hash_password payload.password)
          is_active := some true
          role := some "user" }
      let r := create_document store "user" user_doc
      let user_id := r.1
      let store' := r.2
      let tok := (create_access_token
        [("sub", JVal.s (toString user_id)),
         ("email", JVal.s (pyLower payload.email))] now none).2
      let public_user : List (String × JVal) :=
        [("_id", JVal.oid user_id),
         ("name", optStrToJVal user_doc.name),
         ("email", optStrToJVal user_doc.email),
         ("is_active", JVal.b (user_doc.is_active.getD true)),
         ("role", JVal.s (user_doc.role.getD "user"))]
      .ok (⟨tok, public_user⟩, store')

/-- The login handler (`POST /auth/login`). -/
def login (db : Option Store) (payload : LoginRequest) (now : Nat) :
    Except HTTPError AuthResponse :=
  match db with
  | none => .error ⟨500, "Database not configured"⟩
  | some store =>
    match get_documents store "user" (pyLower payload.email) 1 with
    | [] => .error ⟨401, "Invalid email or password"⟩
    | user :: _ =>
      if !verify_password payload.password (user.password_hash.getD "") then
        .error ⟨401, "Invalid email or password"⟩
      else
        let tok := (create_access_token
          [("sub", JVal.s (pyStr user._id)),
           ("email", optStrToJVal user.email)] now none).2
        let public_user : List (String × JVal) :=
          [("_id", JVal.s (pyStr user._id)),
           ("name", optStrToJVal user.name),
           ("email", optStrToJVal user.email),
           ("is_active", JVal.b (user.is_active.getD true)),
           ("role", JVal.s (user.role.getD "user"))]
        .ok ⟨tok, public_user⟩

/-! ## Helper lemmas about the store gateway -/

lemma get_documents_user_eq (store : Store) (e : String) (limit : Nat) :
    get_documents store "user" e limit =
      (store.users.filter (fun d => d.email == some e)).take limit := by
  simp [get_documents]

lemma filter_nil_of_fresh {store : Store} {e : String}
    (h : get_documents store "user" e 1 = []) :
    store.users.filter (fun d => d.email == some e) = [] := by
  rw [get_documents_user_eq] at h
  cases h' : store.users.filter (fun d => d.email == some e) with
  | nil => rfl
  | cons x xs => rw [h'] at h; simp at h

lemma head_email_of_found {store : Store} {e : String} {u : Doc} {rest : List Doc}
    (h : get_documents store "user" e 1 = u :: rest) :
    u.email = some e := by
  rw [get_documents_user_eq] at h
  have hu : u ∈ (store.users.filter (fun d => d.email == some e)).take 1 := by
    rw [h]; exact List.mem_cons_self _ _
  have hu2 := List.mem_of_mem_take hu
  have := (List.mem_filter.mp hu2).2
  simpa using this

lemma filter_append_singleton (l : List Doc) (d : Doc) (p : Doc → Bool)
    (hl : l.filter p = []) (hd : p d = true) :
    (l ++ [d]).filter p = [d] := by
  simp [List.filter_append, hl, List.filter, hd]

lemma verify_password_empty (p : String) : verify_password p "" = false := by
  simp only [verify_password, hash_password]
  rw [beq_eq_false_iff_ne]
  intro h
  have hlen := congrArg String.length h
  rw [String.length_append] at hlen
  have h7 : "bcrypt$".length = 7 := rfl
  have h0 : ("" : String).length = 0 := rfl
  omega

lemma verify_password_hash_self (p : String) :
    verify_password p (hash_password p) = true := by
  simp [verify_password]

lemma create_document_user (store : Store) (doc : Doc) :
    create_document store "user" doc =
      (store.nextId,
        ⟨store.users ++ [{ doc with _id := some store.nextId }],
          store.nextId + 1⟩) := by
  simp [create_document]

/-! ## Claims -/

/-- C1: for every valid signup payload whose email is not already present
in the store (store available), the signup handler returns a response
containing a token and a public user object whose email equals the
lowercased input email and which contains no `password_hash` field. -/
theorem signup_fresh_email_ok (store : Store) (r : SignupRequest) (now : Nat)
    (hvalid : r.isValid = true)
    (hfresh : get_documents store "user" (pyLower r.email) 1 = []) :
    ∃ (resp : AuthResponse) (store' : Store),
      signup (some store) r now = .ok (resp, store') ∧
      resp.user.lookup "email" = some (JVal.s (pyLower r.email)) ∧
      resp.user.lookup "password_hash" = none := by
  simp only [signup, hfresh, List.isEmpty_nil, Bool.not_true, Bool.false_eq_true,
    if_false]
  exact ⟨_, _, rfl, rfl, rfl⟩

/-- Witness for `signup_fresh_email_ok` at a concrete fresh store and payload. -/
theorem signup_fresh_email_ok_witness :
    ∃ (resp : AuthResponse) (store' : Store),
      signup (some ⟨[], 0⟩) ⟨"Ann", "Ann@X.com", "secret1"⟩ 0 = .ok (resp, store') ∧
      resp.user.lookup "email" = some (JVal.s (pyLower "Ann@X.com")) ∧
      resp.user.lookup "password_hash" = none :=
  signup_fresh_email_ok ⟨[], 0⟩ ⟨"Ann", "Ann@X.com", "secret1"⟩ 0
    (by decide) (by decide)

/-- C2: if a user whose stored email is the lowercase form of `r.email`
already exists in the store, signup (with any casing of that email)
fails with the duplicate-email error; no new record is inserted (the
handler returns an error, so the store after the call is the store it
was given). -/
theorem signup_duplicate_email (store : Store) (r : SignupRequest) (now : Nat)
    (d : Doc) (hd : d ∈ store.users) (hemail : d.email = some (pyLower r.email)) :
    signup (some store) r now = .error ⟨400, "Email already registered"⟩ := by
  have hmem : d ∈ store.users.filter (fun x => x.email == some (pyLower r.email)) :=
    List.mem_filter.mpr ⟨hd, by simp [hemail]⟩
  cases h' : store.users.filter (fun x => x.email == some (pyLower r.email)) with
  | nil => rw [h'] at hmem; cases hmem
  | cons x xs =>
    simp only [signup, get_documents_user_eq, h', List.take_succ_cons,
      List.take_zero, List.isEmpty_cons, Bool.not_false, if_true]

/-- Witness for `signup_duplicate_email`: a store already holding
`ann@x.com` rejects a second signup using the casing `ANN@x.com`. -/
theorem signup_duplicate_email_witness :
    signup (some ⟨[⟨some 0, some "Ann", some "ann@x.com",
        some (hash_password "secret1"), some true, some "user"⟩], 1⟩)
      ⟨"Ann", "ANN@x.com", "secret1"⟩ 5 = .error ⟨400, "Email already registered"⟩ :=
  signup_duplicate_email _ _ 5
    ⟨some 0, some "Ann", some "ann@x.com",
      some (hash_password "secret1"), some true, some "user"⟩
    (by decide) (by decide)

/-- C3: the error produced by login when no user with the normalized
email exists is identical (same status 401 and same detail) to the
error produced when the user exists but password verification fails;
the two failure causes are indistinguishable to the caller. -/
theorem login_invalid_credentials_indistinguishable
    (store store' : Store) (r r' : LoginRequest) (now now' : Nat)
    (hnone : get_documents store "user" (pyLower r.email) 1 = [])
    (u : Doc) (rest : List Doc)
    (hfound : get_documents store' "user" (pyLower r'.email) 1 = u :: rest)
    (hbad : verify_password r'.password (u.password_hash.getD "") = false) :
    login (some store) r now = .error ⟨401, "Invalid email or password"⟩ ∧
    login (some store') r' now' = .error ⟨401, "Invalid email or password"⟩ ∧
    login (some store) r now = login (some store') r' now' := by
  have h1 : login (some store) r now = .error ⟨401, "Invalid email or password"⟩ := by
    simp only [login, hnone]
  have h2 : login (some store') r' now' = .error ⟨401, "Invalid email or password"⟩ := by
    simp only [login, hfound, hbad, Bool.not_false, if_true]
  exact ⟨h1, h2, h1.trans h2.symm⟩

/-- Witness for `login_invalid_credentials_indistinguishable`: an empty
store with an unknown email on one side, a store holding `bob@x.com`
with a wrong password on the other. -/
theorem login_invalid_credentials_indistinguishable_witness :
    login (some ⟨[], 0⟩) ⟨"noone@x.com", "secret1"⟩ 3
      = .error ⟨401, "Invalid email or password"⟩ ∧
    login (some ⟨[⟨some 0, some "Bob", some "bob@x.com",
        some (hash_password "pw123456"), some true, some "user"⟩], 1⟩)
      ⟨"bob@x.com", "wrong123"⟩ 4 = .error ⟨401, "Invalid email or password"⟩ ∧
    login (some ⟨[], 0⟩) ⟨"noone@x.com", "secret1"⟩ 3
      = login (some ⟨[⟨some 0, some "Bob", some "bob@x.com",
          some (hash_password "pw123456"), some true, some "user"⟩], 1⟩)
        ⟨"bob@x.com", "wrong123"⟩ 4 :=
  login_invalid_credentials_indistinguishable _ _ _ _ 3 4 (by decide)
    ⟨some 0, some "Bob", some "bob@x.com",
      some (hash_password "pw123456"), some true, some "user"⟩ []
    (by decide) (by decide)

/-- C4: when the stored user record matched by a login lacks a
`password_hash` field, the handler treats the hash as the empty string
and verification fails safely: the handler returns the
invalid-credentials error. -/
theorem login_missing_hash_fails_safely (store : Store) (r : LoginRequest)
    (now : Nat) (u : Doc) (rest : List Doc)
    (hfound : get_documents store "user" (pyLower r.email) 1 = u :: rest)
    (hnohash : u.password_hash = none) :
    login (some store) r now = .error ⟨401, "Invalid email or password"⟩ := by
  simp only [login, hfound, hnohash, Option.getD_none, verify_password_empty,
    Bool.not_false, if_true]

/-- Witness for `login_missing_hash_fails_safely`: a stored record with
no `password_hash` field. -/
theorem login_missing_hash_fails_safely_witness :
    login (some ⟨[⟨some 0, some "Eve", some "eve@x.com",
        none, some true, some "user"⟩], 1⟩)
      ⟨"eve@x.com", "secret1"⟩ 9 = .error ⟨401, "Invalid email or password"⟩ :=
  login_missing_hash_fails_safely _ _ 9
    ⟨some 0, some "Eve", some "eve@x.com", none, some true, some "user"⟩ []
    (by decide) rfl

/-- A sample stored user, used to instantiate theorems at concrete inputs. -/
def bobDoc : Doc :=
  ⟨some 7, some "Bob", some "bob@x.com", some (hash_password "pw123456"),
    some true, some "user"⟩

/-- A sample store holding `bobDoc`, used to instantiate theorems. -/
def bobStore : Store := ⟨[bobDoc], 8⟩

/-- C5: every token issued at time `now` by a successful signup or login
carries an `exp` claim equal to `now` plus 7 days, a `sub` claim equal
to the user's id as a string, and an `email` claim equal to the
normalized lowercase email. -/
theorem token_claims_seven_days (store : Store) (now : Nat) :
    (∀ r : SignupRequest,
        get_documents store "user" (pyLower r.email) 1 = [] →
        ∃ (resp : AuthResponse) (store' : Store) (uid : ObjectId),
          signup (some store) r now = .ok (resp, store') ∧
          resp.user.lookup "_id" = some (JVal.oid uid) ∧
          resp.token.payload.lookup "sub" = some (JVal.s (toString uid)) ∧
          resp.token.payload.lookup "email" = some (JVal.s (pyLower r.email)) ∧
          resp.token.payload.lookup "exp"
            = some (JVal.time (now + 7 * 24 * 60 * 60))) ∧
    (∀ (r : LoginRequest) (u : Doc) (rest : List Doc) (uid : ObjectId),
        get_documents store "user" (pyLower r.email) 1 = u :: rest →
        verify_password r.password (u.password_hash.getD "") = true →
        u._id = some uid →
        ∃ resp : AuthResponse,
          login (some store) r now = .ok resp ∧
          resp.token.payload.lookup "sub" = some (JVal.s (toString uid)) ∧
          resp.token.payload.lookup "email" = some (JVal.s (pyLower r.email)) ∧
          resp.token.payload.lookup "exp"
            = some (JVal.time (now + 7 * 24 * 60 * 60))) := by
  constructor
  · intro r hfresh
    simp only [signup, hfresh, List.isEmpty_nil, Bool.not_true,
      Bool.false_eq_true, if_false]
    exact ⟨_, _, store.nextId, rfl, rfl, rfl, rfl, rfl⟩
  · intro r u rest uid hfound hok hid
    simp only [login, hfound, hok, Bool.not_true, Bool.false_eq_true, if_false]
    refine ⟨_, rfl, ?_, ?_, rfl⟩
    · rw [hid]; rfl
    · rw [head_email_of_found hfound]; rfl

/-- Witness for `token_claims_seven_days`: a signup with a fresh email
and a login against `bobStore`, both at time 100. -/
theorem token_claims_seven_days_witness :
    (∃ (resp : AuthResponse) (store' : Store) (uid : ObjectId),
        signup (some bobStore) ⟨"Ann", "Ann@X.com", "secret1"⟩ 100
          = .ok (resp, store') ∧
        resp.user.lookup "_id" = some (JVal.oid uid) ∧
        resp.token.payload.lookup "sub" = some (JVal.s (toString uid)) ∧
        resp.token.payload.lookup "email"
          = some (JVal.s (pyLower "Ann@X.com")) ∧
        resp.token.payload.lookup "exp"
          = some (JVal.time (100 + 7 * 24 * 60 * 60))) ∧
    (∃ resp : AuthResponse,
        login (some bobStore) ⟨"BOB@x.com", "pw123456"⟩ 100 = .ok resp ∧
        resp.token.payload.lookup "sub" = some (JVal.s (toString (7 : ObjectId))) ∧
        resp.token.payload.lookup "email"
          = some (JVal.s (pyLower "BOB@x.com")) ∧
        resp.token.payload.lookup "exp"
          = some (JVal.time (100 + 7 * 24 * 60 * 60))) :=
  ⟨(token_claims_seven_days bobStore 100).1 ⟨"Ann", "Ann@X.com", "secret1"⟩
      (by decide),
    (token_claims_seven_days bobStore 100).2 ⟨"BOB@x.com", "pw123456"⟩
      bobDoc [] 7 (by decide) (by decide) rfl⟩

/-- C6 fails as stated: pydantic validates the name length before the
handler trims it, so the payload name `" A"` (length 2) is valid, yet
the persisted record's name is `"A"`, of length 1 < 2. -/
theorem signup_trimmed_name_counterexample :
    SignupRequest.isValid ⟨" A", "b@c.de", "secret1"⟩ = true ∧
    (∃ (resp : AuthResponse) (store' : Store),
        signup (some ⟨[], 0⟩) ⟨" A", "b@c.de", "secret1"⟩ 0 = .ok (resp, store') ∧
        store'.users.map Doc.name = [some "A"]) ∧
    ¬ 2 ≤ ("A" : String).length :=
  ⟨by decide, ⟨_, _, rfl, by decide⟩, by decide⟩

/-- C6 (amended): every User record persisted by signup has name equal
to the trimmed input name (the 2-80 length bound is validated before
trimming, so the stored name can be shorter than 2 characters), email
equal to the lowercased input email, `is_active` true, and role
`"user"`. -/
theorem signup_persisted_user_fields (store : Store) (r : SignupRequest)
    (now : Nat) (hvalid : r.isValid = true)
    (hfresh : get_documents store "user" (pyLower r.email) 1 = []) :
    ∃ (resp : AuthResponse) (store' : Store),
      signup (some store) r now = .ok (resp, store') ∧
      store'.users = store.users ++
        [{ _id := some store.nextId, name := some (pyStrip r.name),
           email := some (pyLower r.email),
           password_hash := some (hash_password r.password),
           is_active := some true, role := some "user" }] := by
  simp only [signup, hfresh, List.isEmpty_nil, Bool.not_true,
    Bool.false_eq_true, if_false]
  exact ⟨_, _, rfl, rfl⟩

/-- Witness for `signup_persisted_user_fields` at a concrete payload. -/
theorem signup_persisted_user_fields_witness :
    ∃ (resp : AuthResponse) (store' : Store),
      signup (some ⟨[], 0⟩) ⟨" Carol ", "Carol@X.com", "secret1"⟩ 0
        = .ok (resp, store') ∧
      store'.users = [] ++
        [{ _id := some 0, name := some (pyStrip " Carol "),
           email := some (pyLower "Carol@X.com"),
           password_hash := some (hash_password "secret1"),
           is_active := some true, role := some "user" }] :=
  signup_persisted_user_fields ⟨[], 0⟩ ⟨" Carol ", "Carol@X.com", "secret1"⟩ 0
    (by decide) (by decide)

/-- C7: with the store handle unset, both handlers fail with the
service-unavailable error (HTTP 500, "Database not configured"),
distinct from the duplicate-email and invalid-credentials errors. -/
theorem handlers_store_unavailable (r1 : SignupRequest) (r2 : LoginRequest)
    (now1 now2 : Nat) :
    signup none r1 now1 = .error ⟨500, "Database not configured"⟩ ∧
    login none r2 now2 = .error ⟨500, "Database not configured"⟩ ∧
    (⟨500, "Database not configured"⟩ : HTTPError)
      ≠ ⟨400, "Email already registered"⟩ ∧
    (⟨500, "Database not configured"⟩ : HTTPError)
      ≠ ⟨401, "Invalid email or password"⟩ :=
  ⟨rfl, rfl, by decide, by decide⟩

/-- C8: after a successful signup with email `r.email` and password
`r.password`, a login with any casing variant of that email (same
lowercase form) and the same password succeeds and returns the same
user id as the signup (signup reports it raw, login stringified). -/
theorem signup_then_login_roundtrip (store : Store) (r : SignupRequest)
    (e2 : String) (now now2 : Nat)
    (hcase : pyLower e2 = pyLower r.email)
    (hfresh : get_documents store "user" (pyLower r.email) 1 = []) :
    ∃ (resp : AuthResponse) (store' : Store) (uid : ObjectId),
      signup (some store) r now = .ok (resp, store') ∧
      resp.user.lookup "_id" = some (JVal.oid uid) ∧
      ∃ resp2 : AuthResponse,
        login (some store') ⟨e2, r.password⟩ now2 = .ok resp2 ∧
        resp2.user.lookup "_id" = some (JVal.s (toString uid)) := by
  have hnil := filter_nil_of_fresh hfresh
  simp only [signup, hfresh, create_document_user, List.isEmpty_nil,
    Bool.not_true, Bool.false_eq_true, if_false]
  refine ⟨_, _, store.nextId, rfl, rfl, ?_⟩
  have hget : get_documents
      ⟨store.users ++
        [{ _id := some store.nextId, name := some (pyStrip r.name),
           email := some (pyLower r.email),
           password_hash := some (hash_password r.password),
           is_active := some true, role := some "user" }],
        store.nextId + 1⟩ "user" (pyLower e2) 1 =
      [{ _id := some store.nextId, name := some (pyStrip r.name),
         email := some (pyLower r.email),
         password_hash := some (hash_password r.password),
         is_active := some true, role := some "user" }] := by
    rw [hcase, get_documents_user_eq]
    rw [filter_append_singleton _ _ _ hnil (by simp)]
    rfl
  simp only [login, hget, Option.getD_some, verify_password_hash_self,
    Bool.not_true, Bool.false_eq_true, if_false]
  exact ⟨_, rfl, rfl⟩

/-- Witness for `signup_then_login_roundtrip`: signup stores
`ann@x.com`; a later login as `ANN@x.com` with the same password
succeeds with the same id. -/
theorem signup_then_login_roundtrip_witness :
    ∃ (resp : AuthResponse) (store' : Store) (uid : ObjectId),
      signup (some ⟨[], 0⟩) ⟨"Ann", "Ann@X.com", "secret1"⟩ 1 = .ok (resp, store') ∧
      resp.user.lookup "_id" = some (JVal.oid uid) ∧
      ∃ resp2 : AuthResponse,
        login (some store') ⟨"ANN@x.com", "secret1"⟩ 2 = .ok resp2 ∧
        resp2.user.lookup "_id" = some (JVal.s (toString uid)) :=
  signup_then_login_roundtrip ⟨[], 0⟩ ⟨"Ann", "Ann@X.com", "secret1"⟩
    "ANN@x.com" 1 2 (by decide) (by decide)

/-- C9: in both handlers the public user carries its identifier under
the key "_id" (there is no "id" key), and the two handlers disagree on
its type: signup returns the raw identifier from the insert operation
un-stringified, login returns the stored identifier converted to a
string, and those two kinds of value are never equal. -/
theorem public_user_id_key_and_type (store : Store) (now : Nat) :
    (∀ r : SignupRequest,
        get_documents store "user" (pyLower r.email) 1 = [] →
        ∃ (resp : AuthResponse) (store' : Store) (uid : ObjectId),
          signup (some store) r now = .ok (resp, store') ∧
          resp.user.lookup "_id" = some (JVal.oid uid) ∧
          resp.user.lookup "id" = none) ∧
    (∀ (r : LoginRequest) (u : Doc) (rest : List Doc),
        get_documents store "user" (pyLower r.email) 1 = u :: rest →
        verify_password r.password (u.password_hash.getD "") = true →
        ∃ resp : AuthResponse,
          login (some store) r now = .ok resp ∧
          resp.user.lookup "_id" = some (JVal.s (pyStr u._id)) ∧
          resp.user.lookup "id" = none) ∧
    (∀ (i : ObjectId) (s : String), JVal.oid i ≠ JVal.s s) := by
  refine ⟨?_, ?_, ?_⟩
  · intro r hfresh
    simp only [signup, hfresh, List.isEmpty_nil, Bool.not_true,
      Bool.false_eq_true, if_false]
    exact ⟨_, _, store.nextId, rfl, rfl, rfl⟩
  · intro r u rest hfound hok
    simp only [login, hfound, hok, Bool.not_true, Bool.false_eq_true, if_false]
    exact ⟨_, rfl, rfl, rfl⟩
  · intro i s h
    cases h

/-- Witness for `public_user_id_key_and_type`: signup of a fresh email
and login of `bobDoc` against `bobStore`. -/
theorem public_user_id_key_and_type_witness :
    (∃ (resp : AuthResponse) (store' : Store) (uid : ObjectId),
        signup (some bobStore) ⟨"Ann", "Ann@X.com", "secret1"⟩ 11
          = .ok (resp, store') ∧
        resp.user.lookup "_id" = some (JVal.oid uid) ∧
        resp.user.lookup "id" = none) ∧
    (∃ resp : AuthResponse,
        login (some bobStore) ⟨"bob@x.com", "pw123456"⟩ 11 = .ok resp ∧
        resp.user.lookup "_id" = some (JVal.s (pyStr bobDoc._id)) ∧
        resp.user.lookup "id" = none) ∧
    JVal.oid 7 ≠ JVal.s "7" :=
  ⟨(public_user_id_key_and_type bobStore 11).1 ⟨"Ann", "Ann@X.com", "secret1"⟩
      (by decide),
    (public_user_id_key_and_type bobStore 11).2.1 ⟨"bob@x.com", "pw123456"⟩
      bobDoc [] (by decide) (by decide),
    (public_user_id_key_and_type bobStore 11).2.2 7 "7"⟩

/-- C10: `create_access_token` never mutates its `data` argument: the
caller's claims mapping comes back unchanged (the source adds the
`exp` entry only to `data.copy()`). -/
theorem create_access_token_no_mutation (data : List (String × JVal))
    (now : Nat) (expires_delta : Option Nat) :
    (create_access_token data now expires_delta).1 = data := rfl

end MainPy
